import Mathlib

/-!
Verification of the kfp-tekton BigQuery ml-trial-info component and of the
asynchronous launch-track-wait-finish core it delegates to.

Part A embeds the visible component constructor
(`components/google-cloud/google_cloud_pipeline_components/v1/bigquery/ml_trial_info/component.py`)
as a pure Lean function producing a `ContainerSpec` value.

Part B models the launcher core (ResourceHandle Store, Remote Job Client,
Launcher poll loop, Output Emitter).  The launcher module
`google_cloud_pipeline_components.container.v1.bigquery.ml_trial_info.launcher`
is only invoked by the component; its code is not part of this tree, so the
core is modelled from the specification.
-/

namespace KFP

/-! ## Part A: the component constructor, embedded from the source. -/

/-- A BigQuery ML model artifact reference (`Input[BQMLModel]` in the source);
its metadata fields are the ones the component's placeholders mention. -/
structure BQMLModel where
  projectId : String
  datasetId : String
  modelId : String
deriving DecidableEq

/-- An output artifact slot (`Output[Artifact]` in the source). -/
structure ArtifactSlot where
  name : String
deriving DecidableEq

/-- A command-line argument of the container invocation: a literal string, a
`ConcatPlaceholder` of parts, a list-valued parameter or a dict-valued
parameter, mirroring how the source builds `args`. -/
inductive Arg where
  | lit : String → Arg
  | concat : List Arg → Arg
  | listVal : List String → Arg
  | dictVal : List (String × String) → Arg

/-- `kfp.dsl.ContainerSpec`: image, command and args of the launched container. -/
structure ContainerSpec where
  image : String
  command : List String
  args : List Arg

/-- Embedding of `bigquery_ml_trial_info_job` from
`v1/bigquery/ml_trial_info/component.py`: a declarative constructor that
returns the container invocation of the external launcher process.  Braces and
apostrophes of the placeholder strings are written with hex escapes. -/
def bigquery_ml_trial_info_job
    (project : String)
    (model : BQMLModel)
    (trial_info : ArtifactSlot)
    (gcp_resources : String)
    (location : String := "us-central1")
    (query_parameters : List String := [])
    (job_configuration_query : List (String × String) := [])
    (labels : List (String × String) := [])
    (encryption_spec_key_name : String := "") : ContainerSpec :=
  { image := "gcr.io/ml-pipeline/google-cloud-pipeline-components:2.0.0b1"
    command := ["python3", "-u", "-m",
      "google_cloud_pipeline_components.container.v1.bigquery.ml_trial_info.launcher"]
    args := [
      Arg.lit "--type",
      Arg.lit "BigqueryMLTrialInfoJob",
      Arg.lit "--project",
      Arg.lit project,
      Arg.lit "--location",
      Arg.lit location,
      Arg.lit "--model_name",
      Arg.concat [
        Arg.lit "\x7b\x7b$.inputs.artifacts[\x27model\x27].metadata[\x27projectId\x27]\x7d\x7d",
        Arg.lit ".",
        Arg.lit "\x7b\x7b$.inputs.artifacts[\x27model\x27].metadata[\x27datasetId\x27]\x7d\x7d",
        Arg.lit ".",
        Arg.lit "\x7b\x7b$.inputs.artifacts[\x27model\x27].metadata[\x27modelId\x27]\x7d\x7d"],
      Arg.lit "--payload",
      Arg.concat [
        Arg.lit "\x7b",
        Arg.lit "\"configuration\": \x7b",
        Arg.lit "\"query\": ",
        Arg.dictVal job_configuration_query,
        Arg.lit ", \"labels\": ",
        Arg.dictVal labels,
        Arg.lit "\x7d",
        Arg.lit "\x7d"],
      Arg.lit "--job_configuration_query_override",
      Arg.concat [
        Arg.lit "\x7b",
        Arg.lit "\"query_parameters\": ",
        Arg.listVal query_parameters,
        Arg.lit ", \"destination_encryption_configuration\": \x7b",
        Arg.lit "\"kmsKeyName\": \"",
        Arg.lit encryption_spec_key_name,
        Arg.lit "\"\x7d",
        Arg.lit "\x7d"],
      Arg.lit "--gcp_resources",
      Arg.lit gcp_resources,
      Arg.lit "--executor_input",
      Arg.lit "\x7b\x7b$\x7d\x7d"] }

end KFP

namespace Launcher

/-! ## Part B: the launch-track-wait-finish core, modelled from the spec.

The component above only constructs the invocation of the launcher process;
the launcher itself (ResourceHandle Store, Remote Job Client, poll loop,
Output Emitter) is not part of this tree, so every definition below is
modelled from the specification. -/

/-- Modelled from the spec: a raw output reference carried by a `Succeeded`
remote status; `kind_str` is parsed by the Output Emitter, `metadata` is the
payload it carries over. -/
structure OutputRef where
  kind_str : String
  metadata : List (String × String)
deriving DecidableEq

/-- Modelled from the spec: the artifact kinds the Output Emitter recognizes
(a metadata-bearing reference). -/
inductive ArtifactKind where
  | metadataBearingReference
deriving DecidableEq

/-- Modelled from the spec: `OutputArtifact` — kind plus metadata mapping,
produced only from a `Succeeded` status. -/
structure OutputArtifact where
  kind : ArtifactKind
  metadata : List (String × String)
deriving DecidableEq

/-- Modelled from the spec: the `LaunchError` taxonomy of §7. -/
inductive LaunchError where
  | StoreUnavailable
  | SubmissionFailed
  | RemoteJobFailed (error_detail : String)
  | RemoteJobCancelled
  | PollingExhausted
  | Timeout
  | MalformedOutput
deriving DecidableEq

/-- Modelled from the spec: `JobStatus` variants
`{Pending, Running, Succeeded(output_ref), Failed(error_detail), Cancelled}`. -/
inductive JobStatus where
  | pending
  | running
  | succeeded (output_ref : OutputRef)
  | failed (error_detail : String)
  | cancelled
deriving DecidableEq

/-- The terminal variants of `JobStatus` are `{Succeeded, Failed, Cancelled}`. -/
def isTerminal : JobStatus → Bool
  | JobStatus.succeeded _ => true
  | JobStatus.failed _ => true
  | JobStatus.cancelled => true
  | _ => false

/-- Position of a status in the monotone order Pending → Running → terminal. -/
def statusRank : JobStatus → Nat
  | JobStatus.pending => 0
  | JobStatus.running => 1
  | _ => 2

/-- Modelled from the spec: a terminal outcome of a remote job. -/
inductive TerminalStatus where
  | succeeded (output_ref : OutputRef)
  | failed (error_detail : String)
  | cancelled
deriving DecidableEq

/-- The `JobStatus` a terminal outcome presents through `poll`. -/
def TerminalStatus.toStatus : TerminalStatus → JobStatus
  | TerminalStatus.succeeded r => JobStatus.succeeded r
  | TerminalStatus.failed e => JobStatus.failed e
  | TerminalStatus.cancelled => JobStatus.cancelled

/-- Modelled from the spec: the trajectory of one remote job — it is Pending
for `pendingFor` poll ticks, then Running for `runningFor` ticks, then stays
at its terminal outcome `final` forever (no transition out of a terminal
state). -/
structure RemoteJob where
  pendingFor : Nat
  runningFor : Nat
  final : TerminalStatus
deriving DecidableEq

/-- First poll tick at which the job is observed terminal. -/
def terminalTick (j : RemoteJob) : Nat := j.pendingFor + j.runningFor

/-- The `JobStatus` that `poll` observes at tick `t` of the job's life. -/
def RemoteJob.statusAt (j : RemoteJob) (t : Nat) : JobStatus :=
  if t < j.pendingFor then JobStatus.pending
  else if t < j.pendingFor + j.runningFor then JobStatus.running
  else j.final.toStatus

/-- Modelled from the spec: the remote-service kinds a handle can point to. -/
inductive ServiceKind where
  | bigqueryJob
deriving DecidableEq

/-- Modelled from the spec: `ResourceHandle`
`{remote_job_id, service_kind, created_at}` — the durable record of which
remote job an invocation started. -/
structure ResourceHandle where
  remote_job_id : String
  service_kind : ServiceKind
  created_at : Nat
deriving DecidableEq

/-- Modelled from the spec: `LaunchRequest`
`{idempotency_key, job_spec, location, labels}`. -/
structure LaunchRequest where
  idempotency_key : String
  job_spec : String
  location : String
  labels : List (String × String)
deriving DecidableEq

/-- The durable ResourceHandle Store: idempotency_key ↦ handle. -/
abbrev Store := List (String × ResourceHandle)

/-- Look a key up in the store. -/
def lookupStore : Store → String → Option ResourceHandle
  | [], _ => none
  | (k, h) :: s, key => if key = k then some h else lookupStore s key

/-- One invocation of the Remote Job Client, recorded in a call trace. -/
inductive ClientCall where
  | submit (job_spec : String)
  | poll (remote_job_id : String)
  | cancel (remote_job_id : String)
deriving DecidableEq

/-- Number of `submit` calls in a trace. -/
def countSubmits : List ClientCall → Nat
  | [] => 0
  | ClientCall.submit _ :: tr => countSubmits tr + 1
  | _ :: tr => countSubmits tr

/-- Number of `cancel` calls in a trace. -/
def countCancels : List ClientCall → Nat
  | [] => 0
  | ClientCall.cancel _ :: tr => countCancels tr + 1
  | _ :: tr => countCancels tr

/-- Modelled from the spec: the deterministic environment behind the Remote
Job Client — which id `submit` assigns to a job spec, the trajectory of each
remote job, and how many transient transport failures precede the successful
poll at each tick. -/
structure RemoteEnv where
  submitId : String → String
  job : String → RemoteJob
  failuresAt : Nat → Nat

/-- Modelled from the spec: the Output Emitter, `emit(output_ref)`.  Pure
translation; fails with `MalformedOutput` if the reference's kind cannot be
parsed into the expected artifact shape. -/
def parseKind (s : String) : Option ArtifactKind :=
  if s = "metadata-bearing-reference" then some ArtifactKind.metadataBearingReference
  else none

/-- A reference is well-formed when its kind parses. -/
def wellFormedRef (r : OutputRef) : Bool := (parseKind r.kind_str).isSome

/-- Modelled from the spec: `emit(output_ref) -> OutputArtifact`, with
`MalformedOutput` on a parse failure. -/
def emit (r : OutputRef) : Except LaunchError OutputArtifact :=
  match parseKind r.kind_str with
  | some k => Except.ok { kind := k, metadata := r.metadata }
  | none => Except.error LaunchError.MalformedOutput

/-- Modelled from the spec: `loadOrCreate(idempotency_key, job_spec)` of the
ResourceHandle Store.  If a handle exists for the key it is returned unchanged
(ignoring `job_spec`) with no client call; otherwise `submit` is called once,
the new handle is persisted into the returned store, and it is returned. -/
def loadOrCreate (env : RemoteEnv) (now : Nat) (store : Store)
    (key job_spec : String) : ResourceHandle × Store × List ClientCall :=
  match lookupStore store key with
  | some h => (h, store, [])
  | none =>
    let h : ResourceHandle :=
      { remote_job_id := env.submitId job_spec
        service_kind := ServiceKind.bigqueryJob
        created_at := now }
    (h, (key, h) :: store, [ClientCall.submit job_spec])

/-- Has the optional deadline elapsed at tick `t`? -/
def deadlineHit : Option Nat → Nat → Bool
  | some d, t => decide (d ≤ t)
  | none, _ => false

/-- Modelled from the spec: the Launcher's poll loop.  At each tick it first
checks the deadline (on expiry it cancels the remote job, best-effort, and
returns `Timeout`); then it polls, retrying transient transport failures up to
`budget` attempts (surfacing `PollingExhausted` when the budget is spent,
never a terminal status); a successful poll either ends the loop at a terminal
status — translating `Succeeded` through the Output Emitter — or sleeps with
backoff and recurses.  `fuel` is an upper bound on remaining ticks; callers
supply enough that it is never exhausted. -/
def pollLoop (env : RemoteEnv) (id : String) (dl : Option Nat) (budget : Nat) :
    Nat → Nat → Except LaunchError OutputArtifact × List ClientCall
  | 0, _ => (Except.error LaunchError.PollingExhausted, [])
  | fuel + 1, t =>
    if deadlineHit dl t then
      (Except.error LaunchError.Timeout, [ClientCall.cancel id])
    else if budget ≤ env.failuresAt t then
      (Except.error LaunchError.PollingExhausted,
        List.replicate budget (ClientCall.poll id))
    else
      let polls := List.replicate (env.failuresAt t + 1) (ClientCall.poll id)
      match (env.job id).statusAt t with
      | JobStatus.succeeded r => (emit r, polls)
      | JobStatus.failed e =>
        (Except.error (LaunchError.RemoteJobFailed e), polls)
      | JobStatus.cancelled => (Except.error LaunchError.RemoteJobCancelled, polls)
      | _ =>
        let rest := pollLoop env id dl budget fuel (t + 1)
        (rest.1, polls ++ rest.2)

/-- The outcome of one `run` invocation: result, post-run store, client-call
trace. -/
structure RunOutcome where
  result : Except LaunchError OutputArtifact
  store : Store
  calls : List ClientCall

/-- The remote job id `run` will poll: the stored handle's id on resume, the
freshly submitted id otherwise. -/
def handleId (env : RemoteEnv) (now : Nat) (store : Store)
    (req : LaunchRequest) : String :=
  (loadOrCreate env now store req.idempotency_key req.job_spec).1.remote_job_id

/-- The trajectory of the remote job `run` will poll. -/
def handleJob (env : RemoteEnv) (now : Nat) (store : Store)
    (req : LaunchRequest) : RemoteJob :=
  env.job (handleId env now store req)

/-- Modelled from the spec: `Launcher.run(request, deadline)`.  Obtains a
handle from the ResourceHandle Store (submitting only if new), then enters the
poll loop from tick 0 with a fuel bound that the trajectory can never
exhaust. -/
def run (env : RemoteEnv) (now : Nat) (store : Store) (req : LaunchRequest)
    (dl : Option Nat) (budget : Nat) : RunOutcome :=
  let lc := loadOrCreate env now store req.idempotency_key req.job_spec
  let pl := pollLoop env lc.1.remote_job_id dl budget
    (terminalTick (env.job lc.1.remote_job_id) + 1) 0
  { result := pl.1, store := lc.2.1, calls := lc.2.2 ++ pl.2 }

/-- A sequence of `run` invocations sharing the durable store (re-invocations
and restarts): each entry is (wall-clock `now`, request, deadline). -/
def runSeq (env : RemoteEnv) (budget : Nat) :
    Store → List (Nat × LaunchRequest × Option Nat) → Store × List ClientCall
  | store, [] => (store, [])
  | store, (now, req, dl) :: rest =>
    let o := run env now store req dl budget
    let r := runSeq env budget o.store rest
    (r.1, o.calls ++ r.2)

/-- The result the launcher derives from a terminal outcome: `Succeeded` goes
through the Output Emitter, `Failed` and `Cancelled` become the matching
`LaunchError`. -/
def finalResult (j : RemoteJob) : Except LaunchError OutputArtifact :=
  match j.final with
  | TerminalStatus.succeeded r => emit r
  | TerminalStatus.failed e => Except.error (LaunchError.RemoteJobFailed e)
  | TerminalStatus.cancelled => Except.error LaunchError.RemoteJobCancelled

/-- The result of a fault-free execution: `Timeout` when the deadline elapses
no later than the first terminal observation, the terminal outcome's
translation otherwise. -/
def idealOutcome (j : RemoteJob) : Option Nat → Except LaunchError OutputArtifact
  | some d =>
    if d ≤ terminalTick j then Except.error LaunchError.Timeout else finalResult j
  | none => finalResult j

/-- The same environment with a perfect transport (no transient failures). -/
def noFailures (env : RemoteEnv) : RemoteEnv :=
  { env with failuresAt := fun _ => 0 }

/-- A well-formed output reference used as concrete input. -/
def refW : OutputRef where
  kind_str := "metadata-bearing-reference"
  metadata := [("uri", "bq://m")]

/-- Concrete environment: the job runs two ticks and then fails. -/
def envFail : RemoteEnv where
  submitId := fun _ => "j1"
  job := fun _ => { pendingFor := 1, runningFor := 1, final := TerminalStatus.failed "boom" }
  failuresAt := fun _ => 0

/-- Concrete environment: the job runs two ticks and then succeeds. -/
def envOk : RemoteEnv where
  submitId := fun _ => "j1"
  job := fun _ => { pendingFor := 1, runningFor := 1, final := TerminalStatus.succeeded refW }
  failuresAt := fun _ => 0

/-- Concrete environment with one transient transport failure at tick 0. -/
def envFlaky : RemoteEnv where
  submitId := fun _ => "j1"
  job := fun _ => { pendingFor := 1, runningFor := 1, final := TerminalStatus.failed "boom" }
  failuresAt := fun t => if t = 0 then 1 else 0

/-- Concrete environment whose transport fails three times at tick 1. -/
def envBroken : RemoteEnv where
  submitId := fun _ => "j1"
  job := fun _ => { pendingFor := 1, runningFor := 1, final := TerminalStatus.failed "boom" }
  failuresAt := fun t => if t = 1 then 3 else 0

/-- A concrete launch request. -/
def reqW : LaunchRequest where
  idempotency_key := "k1"
  job_spec := "Q"
  location := "us-central1"
  labels := []

/-- A store already holding a handle for key `k1`. -/
def storeW : Store :=
  [("k1", { remote_job_id := "j1", service_kind := ServiceKind.bigqueryJob, created_at := 0 })]

end Launcher

namespace KFP

/-- Claim C9: when the `location` parameter is omitted, the launcher is invoked
with location equal to the declared default `us-central1` (not the `US`
multi-region the docstring mentions): the call with `location` omitted equals
the call with `location` explicitly `us-central1`, and the argument following
`--location` in the launcher command line is the literal `us-central1`. -/
theorem location_defaults_to_us_central1
    (project : String) (model : BQMLModel) (trial_info : ArtifactSlot)
    (gcp_resources : String) :
    bigquery_ml_trial_info_job project model trial_info gcp_resources =
      bigquery_ml_trial_info_job project model trial_info gcp_resources "us-central1" ∧
    (bigquery_ml_trial_info_job project model trial_info gcp_resources).args[4]? =
      some (Arg.lit "--location") ∧
    (bigquery_ml_trial_info_job project model trial_info gcp_resources).args[5]? =
      some (Arg.lit "us-central1") := by
  refine ⟨rfl, rfl, rfl⟩

/-- Claim C10: `bigquery_ml_trial_info_job` is a pure configuration
constructor: two calls with equal arguments return equal `ContainerSpec`
values, and the `image` and `command` fields of the result are constants,
independent of every argument. -/
theorem bigquery_ml_trial_info_job_pure
    (p₁ p₂ : String) (m₁ m₂ : BQMLModel) (t₁ t₂ : ArtifactSlot)
    (g₁ g₂ : String) (l₁ l₂ : String) (q₁ q₂ : List String)
    (j₁ j₂ : List (String × String)) (lb₁ lb₂ : List (String × String))
    (e₁ e₂ : String)
    (hp : p₁ = p₂) (hm : m₁ = m₂) (ht : t₁ = t₂) (hg : g₁ = g₂)
    (hl : l₁ = l₂) (hq : q₁ = q₂) (hj : j₁ = j₂) (hlb : lb₁ = lb₂)
    (he : e₁ = e₂) :
    bigquery_ml_trial_info_job p₁ m₁ t₁ g₁ l₁ q₁ j₁ lb₁ e₁ =
      bigquery_ml_trial_info_job p₂ m₂ t₂ g₂ l₂ q₂ j₂ lb₂ e₂ ∧
    (bigquery_ml_trial_info_job p₁ m₁ t₁ g₁ l₁ q₁ j₁ lb₁ e₁).image =
      "gcr.io/ml-pipeline/google-cloud-pipeline-components:2.0.0b1" ∧
    (bigquery_ml_trial_info_job p₁ m₁ t₁ g₁ l₁ q₁ j₁ lb₁ e₁).command =
      ["python3", "-u", "-m",
       "google_cloud_pipeline_components.container.v1.bigquery.ml_trial_info.launcher"] := by
  subst hp hm ht hg hl hq hj hlb he
  exact ⟨rfl, rfl, rfl⟩

/-- Witness for C10 at concrete arguments. -/
theorem bigquery_ml_trial_info_job_pure_witness :
    bigquery_ml_trial_info_job "p" ⟨"a", "b", "c"⟩ ⟨"t"⟩ "g" "loc" ["q"]
        [("k", "v")] [("n", "w")] "key" =
      bigquery_ml_trial_info_job "p" ⟨"a", "b", "c"⟩ ⟨"t"⟩ "g" "loc" ["q"]
        [("k", "v")] [("n", "w")] "key" ∧
    (bigquery_ml_trial_info_job "p" ⟨"a", "b", "c"⟩ ⟨"t"⟩ "g" "loc" ["q"]
        [("k", "v")] [("n", "w")] "key").image =
      "gcr.io/ml-pipeline/google-cloud-pipeline-components:2.0.0b1" ∧
    (bigquery_ml_trial_info_job "p" ⟨"a", "b", "c"⟩ ⟨"t"⟩ "g" "loc" ["q"]
        [("k", "v")] [("n", "w")] "key").command =
      ["python3", "-u", "-m",
       "google_cloud_pipeline_components.container.v1.bigquery.ml_trial_info.launcher"] :=
  bigquery_ml_trial_info_job_pure "p" "p" ⟨"a", "b", "c"⟩ ⟨"a", "b", "c"⟩
    ⟨"t"⟩ ⟨"t"⟩ "g" "g" "loc" "loc" ["q"] ["q"] [("k", "v")] [("k", "v")]
    [("n", "w")] [("n", "w")] "key" "key" rfl rfl rfl rfl rfl rfl rfl rfl rfl

end KFP

namespace Launcher

/-! ### Helper lemmas -/

theorem countSubmits_append (a b : List ClientCall) :
    countSubmits (a ++ b) = countSubmits a + countSubmits b := by
  induction a with
  | nil => simp [countSubmits]
  | cons c tr ih => cases c <;> simp [countSubmits, ih] <;> omega

theorem countCancels_append (a b : List ClientCall) :
    countCancels (a ++ b) = countCancels a + countCancels b := by
  induction a with
  | nil => simp [countCancels]
  | cons c tr ih => cases c <;> simp [countCancels, ih] <;> omega

theorem countSubmits_replicate_poll (n : Nat) (id : String) :
    countSubmits (List.replicate n (ClientCall.poll id)) = 0 := by
  induction n with
  | zero => simp [countSubmits]
  | succ m ih => simp [List.replicate, countSubmits, ih]

theorem countCancels_replicate_poll (n : Nat) (id : String) :
    countCancels (List.replicate n (ClientCall.poll id)) = 0 := by
  induction n with
  | zero => simp [countCancels]
  | succ m ih => simp [List.replicate, countCancels, ih]

theorem isTerminal_toStatus (f : TerminalStatus) :
    isTerminal f.toStatus = true := by
  cases f <;> rfl

theorem statusAt_of_terminalTick_le (j : RemoteJob) (t : Nat)
    (h : terminalTick j ≤ t) : j.statusAt t = j.final.toStatus := by
  unfold terminalTick at h
  unfold RemoteJob.statusAt
  rw [if_neg (by omega), if_neg (by omega)]

theorem statusAt_nonterminal (j : RemoteJob) (t : Nat)
    (h : t < terminalTick j) :
    j.statusAt t = JobStatus.pending ∨ j.statusAt t = JobStatus.running := by
  unfold terminalTick at h
  unfold RemoteJob.statusAt
  by_cases h1 : t < j.pendingFor
  · left; rw [if_pos h1]
  · right; rw [if_neg h1, if_pos (by omega)]

theorem statusRank_statusAt (j : RemoteJob) (t : Nat) :
    statusRank (j.statusAt t) =
      if t < j.pendingFor then 0
      else if t < j.pendingFor + j.runningFor then 1 else 2 := by
  unfold RemoteJob.statusAt
  by_cases h1 : t < j.pendingFor
  · simp [h1, statusRank]
  · by_cases h2 : t < j.pendingFor + j.runningFor
    · simp [h1, h2, statusRank]
    · cases hf : j.final <;> simp [h1, h2, statusRank, TerminalStatus.toStatus]

end Launcher

namespace Launcher

theorem pollLoop_no_submit (env : RemoteEnv) (id : String) (dl : Option Nat)
    (budget : Nat) :
    ∀ fuel t, countSubmits (pollLoop env id dl budget fuel t).2 = 0 := by
  intro fuel
  induction fuel with
  | zero => intro t; simp [pollLoop, countSubmits]
  | succ n ih =>
    intro t
    simp only [pollLoop]
    by_cases hd : deadlineHit dl t = true
    · simp [hd, countSubmits]
    · by_cases hb : budget ≤ env.failuresAt t
      · simp [hd, hb, countSubmits_replicate_poll]
      · cases hs : (env.job id).statusAt t <;>
          simp [hd, hb, hs, countSubmits, countSubmits_append,
            countSubmits_replicate_poll, ih]

theorem pollLoop_ideal (env : RemoteEnv) (id : String) (dl : Option Nat)
    (budget : Nat) (hfail : ∀ s, env.failuresAt s < budget) :
    ∀ fuel t, terminalTick (env.job id) < fuel + t →
      t ≤ terminalTick (env.job id) →
      (∀ d, dl = some d → t ≤ d) →
      (pollLoop env id dl budget fuel t).1 = idealOutcome (env.job id) dl := by
  intro fuel
  induction fuel with
  | zero => intro t hfuel ht _; omega
  | succ n ih =>
    intro t hfuel ht hdl
    have hnofail : ¬ budget ≤ env.failuresAt t := Nat.not_le.mpr (hfail t)
    by_cases hd : deadlineHit dl t = true
    · cases dl with
      | none => simp [deadlineHit] at hd
      | some d =>
        have hdt : d ≤ t := by simpa [deadlineHit] using hd
        have hT : d ≤ terminalTick (env.job id) := le_trans hdt ht
        simp [pollLoop, hd, idealOutcome, hT]
    · rcases Nat.lt_or_ge t (terminalTick (env.job id)) with hlt | hge
      · have hrec : (pollLoop env id dl budget n (t + 1)).1 =
            idealOutcome (env.job id) dl := by
          apply ih (t + 1) (by omega) (by omega)
          intro d hdeq
          subst hdeq
          have hnd : ¬ d ≤ t := by simpa [deadlineHit] using hd
          omega
        rcases statusAt_nonterminal (env.job id) t hlt with hs | hs <;>
          simp [pollLoop, hd, hnofail, hs, hrec]
      · have hs := statusAt_of_terminalTick_le (env.job id) t hge
        have hfr : ∀ d, dl = some d → ¬ d ≤ terminalTick (env.job id) := by
          intro d hdeq
          subst hdeq
          have hnd : ¬ d ≤ t := by simpa [deadlineHit] using hd
          omega
        cases dl with
        | none =>
          cases hfin : (env.job id).final <;>
            simp [pollLoop, hd, hnofail, hs, hfin, TerminalStatus.toStatus,
              idealOutcome, finalResult]
        | some d =>
          have hdT := hfr d rfl
          cases hfin : (env.job id).final <;>
            simp [pollLoop, hd, hnofail, hs, hfin, TerminalStatus.toStatus,
              idealOutcome, finalResult, hdT]

theorem pollLoop_timeout (env : RemoteEnv) (id : String) (d budget : Nat)
    (hfail : ∀ s, s < d → env.failuresAt s < budget)
    (hT : d ≤ terminalTick (env.job id)) :
    ∀ fuel t, d < fuel + t → t ≤ d →
      (pollLoop env id (some d) budget fuel t).1 =
        Except.error LaunchError.Timeout ∧
      countCancels (pollLoop env id (some d) budget fuel t).2 = 1 := by
  intro fuel
  induction fuel with
  | zero => intro t h1 h2; omega
  | succ n ih =>
    intro t hfuel ht
    by_cases hd : d ≤ t
    · have hteq : t = d := le_antisymm ht hd
      subst hteq
      simp [pollLoop, deadlineHit, hd, countCancels]
    · have hlt : t < d := by omega
      have hnofail : ¬ budget ≤ env.failuresAt t := Nat.not_le.mpr (hfail t hlt)
      have hrec := ih (t + 1) (by omega) (by omega)
      have hsn : t < terminalTick (env.job id) := by omega
      rcases statusAt_nonterminal (env.job id) t hsn with hs | hs <;>
        simp [pollLoop, deadlineHit, hd, hnofail, hs, countCancels_append,
          countCancels_replicate_poll, hrec.1, hrec.2]

theorem pollLoop_exhausted (env : RemoteEnv) (id : String) (dl : Option Nat)
    (budget t0 : Nat)
    (hb : budget ≤ env.failuresAt t0)
    (hbefore : ∀ s, s < t0 → env.failuresAt s < budget)
    (hterm : t0 ≤ terminalTick (env.job id))
    (hdl : ∀ d, dl = some d → t0 < d) :
    ∀ fuel t, t0 < fuel + t → t ≤ t0 →
      (pollLoop env id dl budget fuel t).1 =
        Except.error LaunchError.PollingExhausted := by
  intro fuel
  induction fuel with
  | zero => intro t h1 h2; omega
  | succ n ih =>
    intro t hfuel ht
    have hdfalse : ¬ deadlineHit dl t = true := by
      cases dl with
      | none => simp [deadlineHit]
      | some d =>
        have := hdl d rfl
        simp [deadlineHit]
        omega
    by_cases hteq : t = t0
    · subst hteq
      simp [pollLoop, hdfalse, hb]
    · have hlt : t < t0 := by omega
      have hnofail : ¬ budget ≤ env.failuresAt t := Nat.not_le.mpr (hbefore t hlt)
      have hrec := ih (t + 1) (by omega) (by omega)
      have hsn : t < terminalTick (env.job id) := by omega
      rcases statusAt_nonterminal (env.job id) t hsn with hs | hs <;>
        simp [pollLoop, hdfalse, hnofail, hs, hrec]

end Launcher

namespace Launcher

theorem run_result_eq (env : RemoteEnv) (now : Nat) (store : Store)
    (req : LaunchRequest) (dl : Option Nat) (budget : Nat) :
    (run env now store req dl budget).result =
      (pollLoop env (handleId env now store req) dl budget
        (terminalTick (handleJob env now store req) + 1) 0).1 := rfl

theorem run_calls_eq (env : RemoteEnv) (now : Nat) (store : Store)
    (req : LaunchRequest) (dl : Option Nat) (budget : Nat) :
    (run env now store req dl budget).calls =
      (loadOrCreate env now store req.idempotency_key req.job_spec).2.2 ++
      (pollLoop env (handleId env now store req) dl budget
        (terminalTick (handleJob env now store req) + 1) 0).2 := rfl

theorem run_store_eq (env : RemoteEnv) (now : Nat) (store : Store)
    (req : LaunchRequest) (dl : Option Nat) (budget : Nat) :
    (run env now store req dl budget).store =
      (loadOrCreate env now store req.idempotency_key req.job_spec).2.1 := rfl

theorem countCancels_loadOrCreate (env : RemoteEnv) (now : Nat) (store : Store)
    (key spec : String) :
    countCancels (loadOrCreate env now store key spec).2.2 = 0 := by
  rcases h : lookupStore store key with _ | h' <;>
    simp [loadOrCreate, h, countCancels]

theorem run_result_ideal (env : RemoteEnv) (now : Nat) (store : Store)
    (req : LaunchRequest) (dl : Option Nat) (budget : Nat)
    (hfail : ∀ s, env.failuresAt s < budget) :
    (run env now store req dl budget).result =
      idealOutcome (handleJob env now store req) dl := by
  rw [run_result_eq]
  exact pollLoop_ideal env (handleId env now store req) dl budget hfail
    (terminalTick (handleJob env now store req) + 1) 0 (by simp [handleJob])
    (Nat.zero_le _) (fun d _ => Nat.zero_le d)

theorem run_store_calls_of_found (env : RemoteEnv) (now : Nat) (store : Store)
    (req : LaunchRequest) (dl : Option Nat) (budget : Nat) (h : ResourceHandle)
    (hfound : lookupStore store req.idempotency_key = some h) :
    (run env now store req dl budget).store = store ∧
    countSubmits (run env now store req dl budget).calls = 0 := by
  constructor
  · rw [run_store_eq]; simp [loadOrCreate, hfound]
  · rw [run_calls_eq]
    simp [loadOrCreate, hfound, countSubmits_append, countSubmits,
      pollLoop_no_submit]

theorem run_store_calls_of_missing (env : RemoteEnv) (now : Nat) (store : Store)
    (req : LaunchRequest) (dl : Option Nat) (budget : Nat)
    (hmiss : lookupStore store req.idempotency_key = none) :
    (run env now store req dl budget).store =
      (req.idempotency_key,
        { remote_job_id := env.submitId req.job_spec
          service_kind := ServiceKind.bigqueryJob
          created_at := now }) :: store ∧
    countSubmits (run env now store req dl budget).calls = 1 := by
  constructor
  · rw [run_store_eq]; simp [loadOrCreate, hmiss]
  · rw [run_calls_eq]
    simp [loadOrCreate, hmiss, countSubmits_append, countSubmits,
      pollLoop_no_submit]

theorem lookup_after_run (env : RemoteEnv) (now : Nat) (store : Store)
    (req : LaunchRequest) (dl : Option Nat) (budget : Nat) :
    (lookupStore (run env now store req dl budget).store
      req.idempotency_key).isSome = true := by
  rw [run_store_eq]
  rcases h : lookupStore store req.idempotency_key with _ | h'
  · simp [loadOrCreate, h, lookupStore]
  · simp [loadOrCreate, h]

theorem lookup_preserved_run (env : RemoteEnv) (now : Nat) (store : Store)
    (req : LaunchRequest) (dl : Option Nat) (budget : Nat) (k : String)
    (h : ResourceHandle) (hk : lookupStore store k = some h) :
    lookupStore (run env now store req dl budget).store k = some h := by
  rw [run_store_eq]
  rcases hl : lookupStore store req.idempotency_key with _ | h'
  · have hne : ¬ k = req.idempotency_key := by
      intro he
      rw [he, hl] at hk
      cases hk
    simp [loadOrCreate, hl, lookupStore, hne, hk]
  · simp [loadOrCreate, hl, hk]

theorem lookup_preserved_runSeq (env : RemoteEnv) (budget : Nat) :
    ∀ reqs store (k : String) (h : ResourceHandle),
      lookupStore store k = some h →
      lookupStore (runSeq env budget store reqs).1 k = some h := by
  intro reqs
  induction reqs with
  | nil => intro store k h hk; simpa [runSeq] using hk
  | cons x rest ih =>
    intro store k h hk
    rcases x with ⟨now, req, dl⟩
    simp only [runSeq]
    exact ih _ k h (lookup_preserved_run env now store req dl budget k h hk)

theorem runSeq_no_submits (env : RemoteEnv) (budget : Nat) :
    ∀ reqs store (k : String),
      (∀ x ∈ reqs, (x.2.1 : LaunchRequest).idempotency_key = k) →
      (lookupStore store k).isSome = true →
      countSubmits (runSeq env budget store reqs).2 = 0 := by
  intro reqs
  induction reqs with
  | nil => intro store k _ _; simp [runSeq, countSubmits]
  | cons x rest ih =>
    intro store k hk hsome
    rcases x with ⟨now, req, dl⟩
    have hkey : req.idempotency_key = k := hk _ (List.mem_cons_self _ _)
    rcases hl : lookupStore store req.idempotency_key with _ | h'
    · rw [hkey] at hl
      rw [hl] at hsome
      simp at hsome
    · have hrun := run_store_calls_of_found env now store req dl budget h' hl
      simp only [runSeq]
      rw [countSubmits_append, hrun.2, hrun.1]
      rw [ih store k (fun x hx => hk x (List.mem_cons_of_mem _ hx)) hsome]

end Launcher

namespace Launcher

/-! ### Claim theorems -/

/-- Claim C1: over every sequence of `run()` invocations sharing the same
idempotency_key (including re-invocations after a restart, modelled by
threading the durable store), the Remote Job Client's `submit` is invoked at
most once; and when a run finds an existing ResourceHandle in the store, the
whole sequence performs zero submits. -/
theorem submit_at_most_once (env : RemoteEnv) (budget : Nat) (store : Store)
    (k : String) (reqs : List (Nat × LaunchRequest × Option Nat))
    (hk : ∀ x ∈ reqs, (x.2.1 : LaunchRequest).idempotency_key = k) :
    countSubmits (runSeq env budget store reqs).2 ≤ 1 ∧
    ((lookupStore store k).isSome = true →
      countSubmits (runSeq env budget store reqs).2 = 0) := by
  constructor
  · by_cases hs : (lookupStore store k).isSome = true
    · rw [runSeq_no_submits env budget reqs store k hk hs]
      omega
    · cases reqs with
      | nil => simp [runSeq, countSubmits]
      | cons x rest =>
        rcases x with ⟨now, req, dl⟩
        have hkey : req.idempotency_key = k := hk _ (List.mem_cons_self _ _)
        have hmiss : lookupStore store req.idempotency_key = none := by
          rw [hkey]
          rcases hl : lookupStore store k with _ | h'
          · rfl
          · rw [hl] at hs
            simp at hs
        have h1 := run_store_calls_of_missing env now store req dl budget hmiss
        have h2 : (lookupStore (run env now store req dl budget).store k).isSome
            = true := by
          have h3 := lookup_after_run env now store req dl budget
          rw [hkey] at h3
          exact h3
        simp only [runSeq]
        rw [countSubmits_append, h1.2,
          runSeq_no_submits env budget rest _ k
            (fun x hx => hk x (List.mem_cons_of_mem _ hx)) h2]
  · intro hs
    exact runSeq_no_submits env budget reqs store k hk hs

/-- Witness for C1: two runs with key `k1` from an empty store. -/
theorem submit_at_most_once_witness :
    countSubmits (runSeq envFail 3 [] [(0, reqW, none), (1, reqW, none)]).2 ≤ 1 ∧
    ((lookupStore ([] : Store) "k1").isSome = true →
      countSubmits (runSeq envFail 3 [] [(0, reqW, none), (1, reqW, none)]).2 = 0) :=
  submit_at_most_once envFail 3 [] "k1" [(0, reqW, none), (1, reqW, none)]
    (by intro x hx; fin_cases hx <;> rfl)

/-- Claim C2: the ResourceHandle is written to the caller-visible store
exactly once per logical invocation — a run that finds no handle prepends
exactly the one new binding and leaves the rest of the store untouched, a run
that finds a handle leaves the store unchanged — and once persisted the
binding is never mutated by any later sequence of runs, which only read it. -/
theorem handle_write_once (env : RemoteEnv) (budget : Nat) :
    (∀ now store (req : LaunchRequest) dl,
      lookupStore store req.idempotency_key = none →
      (run env now store req dl budget).store =
        (req.idempotency_key,
          { remote_job_id := env.submitId req.job_spec
            service_kind := ServiceKind.bigqueryJob
            created_at := now }) :: store) ∧
    (∀ now store (req : LaunchRequest) dl h,
      lookupStore store req.idempotency_key = some h →
      (run env now store req dl budget).store = store) ∧
    (∀ store reqs (k : String) (h : ResourceHandle),
      lookupStore store k = some h →
      lookupStore (runSeq env budget store reqs).1 k = some h) := by
  refine ⟨?_, ?_, ?_⟩
  · intro now store req dl hm
    exact (run_store_calls_of_missing env now store req dl budget hm).1
  · intro now store req dl h hf
    exact (run_store_calls_of_found env now store req dl budget h hf).1
  · intro store reqs k h hk
    exact lookup_preserved_runSeq env budget reqs store k h hk

/-- Witness for C2 at concrete inputs. -/
theorem handle_write_once_witness :
    (run envFail 0 [] reqW none 3).store =
      (reqW.idempotency_key,
        { remote_job_id := envFail.submitId reqW.job_spec
          service_kind := ServiceKind.bigqueryJob
          created_at := 0 }) :: [] ∧
    (run envFail 1 storeW reqW none 3).store = storeW ∧
    lookupStore (runSeq envFail 3 storeW [(1, reqW, none)]).1 "k1" =
      some { remote_job_id := "j1", service_kind := ServiceKind.bigqueryJob
             created_at := 0 } :=
  ⟨(handle_write_once envFail 3).1 0 [] reqW none rfl,
   (handle_write_once envFail 3).2.1 1 storeW reqW none
     { remote_job_id := "j1", service_kind := ServiceKind.bigqueryJob
       created_at := 0 } rfl,
   (handle_write_once envFail 3).2.2 storeW [(1, reqW, none)] "k1"
     { remote_job_id := "j1", service_kind := ServiceKind.bigqueryJob
       created_at := 0 } rfl⟩

/-- Claim C3: in every `run(request, deadline)` execution in which the
deadline elapses before `poll` observes a terminal status (and polling is not
exhausted first), the launcher invokes `cancel` on the remote job exactly once
and returns `LaunchError.Timeout`. -/
theorem deadline_timeout_cancels_once (env : RemoteEnv) (now : Nat)
    (store : Store) (req : LaunchRequest) (d budget : Nat)
    (hT : d ≤ terminalTick (handleJob env now store req))
    (hfail : ∀ s, s < d → env.failuresAt s < budget) :
    (run env now store req (some d) budget).result =
      Except.error LaunchError.Timeout ∧
    countCancels (run env now store req (some d) budget).calls = 1 := by
  have h := pollLoop_timeout env (handleId env now store req) d budget hfail
    (by simpa [handleJob] using hT)
    (terminalTick (handleJob env now store req) + 1) 0 (by omega) (Nat.zero_le d)
  constructor
  · rw [run_result_eq]
    exact h.1
  · rw [run_calls_eq, countCancels_append, countCancels_loadOrCreate, h.2]

/-- Witness for C3: deadline 1 against a job that first turns terminal at
tick 2. -/
theorem deadline_timeout_cancels_once_witness :
    (run envFail 0 [] reqW (some 1) 3).result =
      Except.error LaunchError.Timeout ∧
    countCancels (run envFail 0 [] reqW (some 1) 3).calls = 1 :=
  deadline_timeout_cancels_once envFail 0 [] reqW 1 3 (by decide)
    (by intro s _; simp [envFail])

/-- Claim C4: in every `run()` execution whose poll loop reaches a terminal
status (no deadline cut-off, transient failures below the budget), the result
is determined by that status: `Succeeded(output_ref)` yields the Output
Emitter's result for the reference, `Failed(error_detail)` yields
`RemoteJobFailed error_detail`, `Cancelled` yields `RemoteJobCancelled`;
the terminal outcome is surfaced as-is, never retried. -/
theorem terminal_outcome_determines_result (env : RemoteEnv) (now : Nat)
    (store : Store) (req : LaunchRequest) (dl : Option Nat) (budget : Nat)
    (hfail : ∀ s, env.failuresAt s < budget)
    (hdl : ∀ d, dl = some d → terminalTick (handleJob env now store req) < d) :
    (run env now store req dl budget).result =
      finalResult (handleJob env now store req) ∧
    (∀ r, (handleJob env now store req).final = TerminalStatus.succeeded r →
      (run env now store req dl budget).result = emit r) ∧
    (∀ e, (handleJob env now store req).final = TerminalStatus.failed e →
      (run env now store req dl budget).result =
        Except.error (LaunchError.RemoteJobFailed e)) ∧
    ((handleJob env now store req).final = TerminalStatus.cancelled →
      (run env now store req dl budget).result =
        Except.error LaunchError.RemoteJobCancelled) := by
  have hmain : (run env now store req dl budget).result =
      finalResult (handleJob env now store req) := by
    rw [run_result_ideal env now store req dl budget hfail]
    cases dl with
    | none => rfl
    | some d =>
      have hlt := hdl d rfl
      simp only [idealOutcome]
      rw [if_neg (by omega)]
  refine ⟨hmain, ?_, ?_, ?_⟩
  · intro r hr
    rw [hmain]
    simp [finalResult, hr]
  · intro e he
    rw [hmain]
    simp [finalResult, he]
  · intro hc
    rw [hmain]
    simp [finalResult, hc]

/-- Witness for C4: a job that succeeds with a well-formed reference. -/
theorem terminal_outcome_determines_result_witness :
    (run envOk 0 [] reqW none 3).result =
      finalResult (handleJob envOk 0 [] reqW) ∧
    (∀ r, (handleJob envOk 0 [] reqW).final = TerminalStatus.succeeded r →
      (run envOk 0 [] reqW none 3).result = emit r) ∧
    (∀ e, (handleJob envOk 0 [] reqW).final = TerminalStatus.failed e →
      (run envOk 0 [] reqW none 3).result =
        Except.error (LaunchError.RemoteJobFailed e)) ∧
    ((handleJob envOk 0 [] reqW).final = TerminalStatus.cancelled →
      (run envOk 0 [] reqW none 3).result =
        Except.error LaunchError.RemoteJobCancelled) :=
  terminal_outcome_determines_result envOk 0 [] reqW none 3
    (by intro s; simp [envOk]) (fun d hd => nomatch hd)

end Launcher

namespace Launcher

/-- Claim C5: transient poll transport failures that stay below the bounded
retry budget do not change the result returned to the caller (it equals the
result under a perfect transport), while an execution that reaches a tick
whose transient failures exhaust the budget returns
`LaunchError.PollingExhausted` — a distinct error, never a terminal remote
status. -/
theorem transient_failures_bounded (env : RemoteEnv) (now : Nat)
    (store : Store) (req : LaunchRequest) (dl : Option Nat) (budget : Nat) :
    ((∀ s, env.failuresAt s < budget) →
      (run env now store req dl budget).result =
        (run (noFailures env) now store req dl budget).result) ∧
    (∀ t0, budget ≤ env.failuresAt t0 →
      (∀ s, s < t0 → env.failuresAt s < budget) →
      t0 ≤ terminalTick (handleJob env now store req) →
      (∀ d, dl = some d → t0 < d) →
      (run env now store req dl budget).result =
        Except.error LaunchError.PollingExhausted) := by
  constructor
  · intro hfail
    have hpos : 0 < budget := Nat.lt_of_le_of_lt (Nat.zero_le _) (hfail 0)
    have h0 : ∀ s, (noFailures env).failuresAt s < budget := fun s => hpos
    rw [run_result_ideal env now store req dl budget hfail,
      run_result_ideal (noFailures env) now store req dl budget h0]
    have hjob : handleJob (noFailures env) now store req =
        handleJob env now store req := by
      unfold handleJob handleId loadOrCreate noFailures
      rcases h : lookupStore store req.idempotency_key with _ | h' <;> simp [h]
    rw [hjob]
  · intro t0 hb hbefore hterm hdl
    rw [run_result_eq]
    exact pollLoop_exhausted env (handleId env now store req) dl budget t0 hb
      hbefore (by simpa [handleJob] using hterm) hdl
      (terminalTick (handleJob env now store req) + 1) 0 (by omega)
      (Nat.zero_le t0)

/-- Witness for C5: one sub-budget failure leaves the result unchanged; a
budget-exhausting burst at tick 1 yields `PollingExhausted`. -/
theorem transient_failures_bounded_witness :
    (run envFlaky 0 [] reqW none 3).result =
      (run (noFailures envFlaky) 0 [] reqW none 3).result ∧
    (run envBroken 0 [] reqW none 3).result =
      Except.error LaunchError.PollingExhausted :=
  ⟨(transient_failures_bounded envFlaky 0 [] reqW none 3).1
     (by intro s; by_cases h : s = 0 <;> simp [envFlaky, h]),
   (transient_failures_bounded envBroken 0 [] reqW none 3).2 1
     (by simp [envBroken])
     (by intro s hs
         have hs0 : s = 0 := by omega
         subst hs0
         simp [envBroken])
     (by decide) (fun d hd => nomatch hd)⟩

/-- Claim C6: when a ResourceHandle already exists for the key,
`loadOrCreate` returns the stored handle unchanged for every `job_spec`, with
the store untouched and zero client calls (hence zero submits); when none
exists it performs exactly one `submit` and the returned handle is already
persisted in the returned store (persist-then-return). -/
theorem loadOrCreate_contract (env : RemoteEnv) (now : Nat) (store : Store)
    (k : String) :
    (∀ h spec, lookupStore store k = some h →
      loadOrCreate env now store k spec = (h, store, [])) ∧
    (∀ spec, lookupStore store k = none →
      countSubmits (loadOrCreate env now store k spec).2.2 = 1 ∧
      lookupStore (loadOrCreate env now store k spec).2.1 k =
        some (loadOrCreate env now store k spec).1) := by
  constructor
  · intro h spec hf
    simp [loadOrCreate, hf]
  · intro spec hm
    simp [loadOrCreate, hm, countSubmits, lookupStore]

/-- Witness for C6: resume from `storeW` ignores the new job spec; creation
from the empty store persists before returning. -/
theorem loadOrCreate_contract_witness :
    loadOrCreate envFail 1 storeW "k1" "Q2" =
      ({ remote_job_id := "j1", service_kind := ServiceKind.bigqueryJob
         created_at := 0 }, storeW, []) ∧
    (countSubmits (loadOrCreate envFail 0 [] "k1" "Q").2.2 = 1 ∧
      lookupStore (loadOrCreate envFail 0 [] "k1" "Q").2.1 "k1" =
        some (loadOrCreate envFail 0 [] "k1" "Q").1) :=
  ⟨(loadOrCreate_contract envFail 1 storeW "k1").1
     { remote_job_id := "j1", service_kind := ServiceKind.bigqueryJob
       created_at := 0 } "Q2" rfl,
   (loadOrCreate_contract envFail 0 [] "k1").2 "Q" rfl⟩

/-- Claim C7: the statuses a remote job presents through `poll` follow the
monotone order Pending → Running → terminal (their rank never decreases with
time), and once a terminal status is observed every later poll returns the
same status. -/
theorem status_transitions_monotone (j : RemoteJob) (t t' : Nat)
    (h : t ≤ t') :
    statusRank (j.statusAt t) ≤ statusRank (j.statusAt t') ∧
    (isTerminal (j.statusAt t) = true → j.statusAt t' = j.statusAt t) := by
  constructor
  · rw [statusRank_statusAt, statusRank_statusAt]
    split_ifs <;> omega
  · intro hterm
    have hge : terminalTick j ≤ t := by
      by_contra hlt
      push_neg at hlt
      rcases statusAt_nonterminal j t hlt with hs | hs <;>
        rw [hs] at hterm <;> simp [isTerminal] at hterm
    rw [statusAt_of_terminalTick_le j t hge,
      statusAt_of_terminalTick_le j t' (le_trans hge h)]

/-- Witness for C7: a job observed at ticks 0 and 5. -/
theorem status_transitions_monotone_witness :
    statusRank ((⟨1, 1, TerminalStatus.cancelled⟩ : RemoteJob).statusAt 0) ≤
      statusRank ((⟨1, 1, TerminalStatus.cancelled⟩ : RemoteJob).statusAt 5) ∧
    (isTerminal ((⟨1, 1, TerminalStatus.cancelled⟩ : RemoteJob).statusAt 0) = true →
      (⟨1, 1, TerminalStatus.cancelled⟩ : RemoteJob).statusAt 5 =
        (⟨1, 1, TerminalStatus.cancelled⟩ : RemoteJob).statusAt 0) :=
  status_transitions_monotone ⟨1, 1, TerminalStatus.cancelled⟩ 0 5 (by omega)

/-- Claim C8: for every well-formed output reference, `emit` returns a
non-error `OutputArtifact` whose metadata equals the reference's metadata; for
every reference whose kind cannot be parsed into the expected artifact shape,
`emit` fails with `MalformedOutput`. -/
theorem emit_round_trip (r : OutputRef) :
    (wellFormedRef r = true →
      ∃ a, emit r = Except.ok a ∧ a.metadata = r.metadata) ∧
    (wellFormedRef r = false →
      emit r = Except.error LaunchError.MalformedOutput) := by
  constructor
  · intro hw
    unfold wellFormedRef at hw
    rcases hk : parseKind r.kind_str with _ | k
    · rw [hk] at hw
      simp at hw
    · exact ⟨⟨k, r.metadata⟩, by simp [emit, hk], rfl⟩
  · intro hw
    unfold wellFormedRef at hw
    rcases hk : parseKind r.kind_str with _ | k
    · simp [emit, hk]
    · rw [hk] at hw
      simp at hw

/-- Witness for C8: the well-formed `refW` round-trips; a bogus kind is
rejected. -/
theorem emit_round_trip_witness :
    (∃ a, emit refW = Except.ok a ∧ a.metadata = refW.metadata) ∧
    emit { kind_str := "bogus", metadata := [] } =
      Except.error LaunchError.MalformedOutput :=
  ⟨(emit_round_trip refW).1 (by decide),
   (emit_round_trip { kind_str := "bogus", metadata := [] }).2 (by decide)⟩

end Launcher
